import Mathlib

/-!
Shallow embedding of the simulation core of src/platformgame.js.

Conventions of the embedding:
* JS numbers used for positions, sizes and velocities are modelled as rationals;
  every constant involved (0.6, 5, 10, 90, ...) is exactly representable, so no
  comparison in the embedded code depends on binary floating-point rounding.
* Counters and scores (health, timers, score, highScore) are modelled as Int,
  matching the integral arithmetic actually performed on them.
* Mutation is modelled by explicit state passing: each JS method becomes a
  function from the receiver (and arguments) to the updated receiver; methods
  that also mutate their arguments (Player.update defeats enemies) return them.
* Presentation-only state is omitted: canvas/ctx, render methods, and the
  bobOffset field of Collectible (written from rotation via Math.sin and read
  only by render; nothing in the simulation reads it).
* The keys map of Game is modelled by the two flags handleInput actually reads
  (ArrowLeft / ArrowRight); jump and reset are delivered as direct calls, as in
  the key handlers.
-/

/-- The fields of the abstract Entity base class that collision reads:
position, size and the active flag (Entity also stores a color, carried
separately by each concrete entity). -/
structure Box where
  x : ℚ
  y : ℚ
  width : ℚ
  height : ℚ
  active : Bool

/-- Entity.collidesWith from platformgame.js lines 32-41: true iff both
entities are active and the bounding boxes strictly overlap on both axes. -/
def Entity.collidesWith (a b : Box) : Bool :=
  a.active && b.active &&
  decide (a.x < b.x + b.width) &&
  decide (a.x + a.width > b.x) &&
  decide (a.y < b.y + b.height) &&
  decide (a.y + a.height > b.y)

/-- Player state: the Entity fields plus the fields set in the Player
constructor (lines 56-73). -/
structure Player where
  x : ℚ
  y : ℚ
  width : ℚ
  height : ℚ
  color : String
  active : Bool
  velocityX : ℚ
  velocityY : ℚ
  speed : ℚ
  jumpPower : ℚ
  gravity : ℚ
  isOnGround : Bool
  health : Int
  maxHealth : Int
  invincible : Bool
  invincibleTimer : Int
  doubleJumpAvailable : Bool
  hasDoubleJump : Bool

/-- new Player(x, y): constructor defaults from lines 56-73. -/
def mkPlayer (x y : ℚ) : Player :=
  { x := x, y := y, width := 40, height := 40, color := "#4CAF50", active := true,
    velocityX := 0, velocityY := 0, speed := 6, jumpPower := 15, gravity := 0.6,
    isOnGround := false, health := 5, maxHealth := 5, invincible := false,
    invincibleTimer := 0, doubleJumpAvailable := false, hasDoubleJump := false }

def Player.toBox (p : Player) : Box :=
  { x := p.x, y := p.y, width := p.width, height := p.height, active := p.active }

/-- Enemy state: Entity fields plus the Enemy constructor fields (lines
255-268).  scoreGiven is not initialised by the constructor; it is first
written by Game.update and reads as undefined (falsy) before that, so it is
modelled as a Bool starting false. -/
structure Enemy where
  x : ℚ
  y : ℚ
  width : ℚ
  height : ℚ
  color : String
  active : Bool
  velocityX : ℚ
  velocityY : ℚ
  gravity : ℚ
  patrolStart : ℚ
  patrolEnd : ℚ
  direction : ℚ
  defeated : Bool
  defeatTimer : Int
  scoreGiven : Bool

/-- new Enemy(x, y, patrolStart, patrolEnd): constructor defaults. -/
def mkEnemy (x y patrolStart patrolEnd : ℚ) : Enemy :=
  { x := x, y := y, width := 35, height := 35, color := "#F44336", active := true,
    velocityX := 2, velocityY := 0, gravity := 0.6,
    patrolStart := patrolStart, patrolEnd := patrolEnd, direction := 1,
    defeated := false, defeatTimer := 0, scoreGiven := false }

def Enemy.toBox (e : Enemy) : Box :=
  { x := e.x, y := e.y, width := e.width, height := e.height, active := e.active }

/-- Enemy.defeat (lines 311-314). -/
def Enemy.defeat (e : Enemy) : Enemy :=
  { e with defeated := true, color := "#FFCDD2" }

/-- Platform state: Entity fields plus the Platform constructor fields
(lines 361-369). -/
structure Platform where
  x : ℚ
  y : ℚ
  width : ℚ
  height : ℚ
  color : String
  active : Bool
  moving : Bool
  moveRange : ℚ
  moveSpeed : ℚ
  startX : ℚ
  direction : ℚ

/-- new Platform(x, y, width, height) with the default arguments
moving=false, moveRange=0, moveSpeed=0. -/
def mkPlatform (x y width height : ℚ) : Platform :=
  { x := x, y := y, width := width, height := height, color := "#795548",
    active := true, moving := false, moveRange := 0, moveSpeed := 0,
    startX := x, direction := 1 }

/-- new Platform(x, y, width, height, true, moveRange, moveSpeed). -/
def mkMovingPlatform (x y width height moveRange moveSpeed : ℚ) : Platform :=
  { x := x, y := y, width := width, height := height, color := "#795548",
    active := true, moving := true, moveRange := moveRange, moveSpeed := moveSpeed,
    startX := x, direction := 1 }

def Platform.toBox (pl : Platform) : Box :=
  { x := pl.x, y := pl.y, width := pl.width, height := pl.height, active := pl.active }

/-- Platform.update (lines 372-384): a moving platform advances by
moveSpeed*direction and clamps/reverses at startX and startX+moveRange;
a static platform is a no-op. -/
def Platform.update (pl : Platform) : Platform :=
  if pl.moving = true then
    let p1 := { pl with x := pl.x + pl.moveSpeed * pl.direction }
    if p1.x ≥ p1.startX + p1.moveRange then
      { p1 with x := p1.startX + p1.moveRange, direction := -1 }
    else if p1.x ≤ p1.startX then
      { p1 with x := p1.startX, direction := 1 }
    else p1
  else pl

/-- The landing tolerance used in the platform collision checks of both
Player and Enemy (lines 115 and 303): platform.y + 5. -/
def platformTopTolerance : ℚ := 5

/-- The stomp tolerance used in Player.checkEnemyCollisions (line 145):
enemy.y + 10. -/
def enemyTopTolerance : ℚ := 10

/-- One iteration of the platforms.forEach body of
Player.checkPlatformCollisions (lines 112-136). -/
def Player.platformCollideStep (p : Player) (pl : Platform) : Player :=
  if Entity.collidesWith p.toBox pl.toBox = true then
    if p.velocityY > 0 ∧ p.y + p.height - p.velocityY ≤ pl.y + platformTopTolerance then
      { p with y := pl.y - p.height, velocityY := 0, isOnGround := true }
    else if p.velocityY < 0 ∧ p.y - p.velocityY ≥ pl.y + pl.height then
      { p with y := pl.y + pl.height, velocityY := 0 }
    else if p.velocityX > 0 then
      { p with x := pl.x - p.width, velocityX := 0 }
    else if p.velocityX < 0 then
      { p with x := pl.x + pl.width, velocityX := 0 }
    else p
  else p

/-- Player.checkPlatformCollisions (lines 111-137): forEach over the
platform list in order. -/
def Player.checkPlatformCollisions (p : Player) : List Platform → Player
  | [] => p
  | pl :: rest => Player.checkPlatformCollisions (p.platformCollideStep pl) rest

/-- Player.takeDamage (lines 156-166). -/
def Player.takeDamage (p : Player) : Player :=
  if p.invincible = true then p
  else
    let p1 := { p with health := p.health - 1, invincible := true, invincibleTimer := 90 }
    if p1.health ≤ 0 then { p1 with active := false } else p1

/-- Player.heal (lines 168-170): health := min(maxHealth, health + amount). -/
def Player.heal (p : Player) (amount : Int) : Player :=
  { p with health := min p.maxHealth (p.health + amount) }

/-- One iteration of the enemies.forEach body of
Player.checkEnemyCollisions (lines 142-153): stomp within the tolerance
defeats the enemy and bounces the player, any other overlap damages. -/
def Player.enemyCollideStep (p : Player) (e : Enemy) : Player × Enemy :=
  if Entity.collidesWith p.toBox e.toBox = true then
    if p.velocityY > 0 ∧ p.y + p.height - p.velocityY ≤ e.y + enemyTopTolerance then
      ({ p with velocityY := -10 }, e.defeat)
    else
      (p.takeDamage, e)
  else (p, e)

def Player.checkEnemyCollisionsAux (p : Player) : List Enemy → Player × List Enemy
  | [] => (p, [])
  | e :: rest =>
    let pe := p.enemyCollideStep e
    let r := Player.checkEnemyCollisionsAux pe.1 rest
    (r.1, pe.2 :: r.2)

/-- Player.checkEnemyCollisions (lines 139-154): skipped entirely while
invincible, else forEach over the enemies in order. -/
def Player.checkEnemyCollisions (p : Player) (enemies : List Enemy) : Player × List Enemy :=
  if p.invincible = true then (p, enemies)
  else p.checkEnemyCollisionsAux enemies

/-- Player.constrainToBounds (lines 172-188): clamp to [0, 2400] in x
(zeroing velocityX) and kill the player past y = 600. -/
def Player.constrainToBounds (p : Player) : Player :=
  let p1 := if p.x < 0 then { p with x := 0, velocityX := 0 } else p
  let p2 := if p1.x + p1.width > 2400 then { p1 with x := 2400 - p1.width, velocityX := 0 } else p1
  if p2.y > 600 then { p2 with health := 0, active := false } else p2

/-- The integration prelude of Player.update (lines 77-86): gravity into
velocityY, displacement by velocity, then isOnGround cleared (the previous
ground state is captured by the caller before this; position updates do
not touch isOnGround, so capturing it before integration is equivalent). -/
def Player.integrate (p : Player) : Player :=
  let p1 := { p with velocityY := p.velocityY + p.gravity }
  let p2 := { p1 with x := p1.x + p1.velocityX, y := p1.y + p1.velocityY }
  { p2 with isOnGround := false }

/-- The double-jump refill of Player.update (lines 92-94): the charge is
restored exactly when the player is on the ground now but was not at the
start of the tick. -/
def Player.landingRefill (p : Player) (wasOnGround : Bool) : Player :=
  if p.isOnGround = true ∧ wasOnGround = false then
    { p with doubleJumpAvailable := true }
  else p

/-- The invincibility countdown of Player.update (lines 103-108). -/
def Player.invincibilityTick (p : Player) : Player :=
  if p.invincible = true then
    let pd := { p with invincibleTimer := p.invincibleTimer - 1 }
    if pd.invincibleTimer ≤ 0 then { pd with invincible := false } else pd
  else p

/-- Player.update (lines 76-109); returns the updated player together with
the enemy list, which Player.checkEnemyCollisions may mutate (defeat). -/
def Player.update (p : Player) (platforms : List Platform) (enemies : List Enemy) :
    Player × List Enemy :=
  let pe := Player.checkEnemyCollisions
      (Player.landingRefill (Player.checkPlatformCollisions (Player.integrate p) platforms)
        p.isOnGround)
      enemies
  (Player.invincibilityTick pe.1.constrainToBounds, pe.2)

/-- Player.moveLeft (lines 190-192). -/
def Player.moveLeft (p : Player) : Player := { p with velocityX := -p.speed }

/-- Player.moveRight (lines 194-196). -/
def Player.moveRight (p : Player) : Player := { p with velocityX := p.speed }

/-- Player.stop (lines 198-200). -/
def Player.stop (p : Player) : Player := { p with velocityX := 0 }

/-- Player.jump (lines 202-213). -/
def Player.jump (p : Player) : Player :=
  if p.isOnGround = true then
    { p with velocityY := -p.jumpPower, isOnGround := false }
  else if p.hasDoubleJump = true ∧ p.doubleJumpAvailable = true then
    { p with velocityY := -p.jumpPower, doubleJumpAvailable := false }
  else p

/-- One iteration of the platforms.forEach body of
Enemy.checkPlatformCollisions (lines 301-308): top-landing only. -/
def Enemy.platformCollideStep (e : Enemy) (pl : Platform) : Enemy :=
  if Entity.collidesWith e.toBox pl.toBox = true then
    if e.velocityY > 0 ∧ e.y + e.height - e.velocityY ≤ pl.y + platformTopTolerance then
      { e with y := pl.y - e.height, velocityY := 0 }
    else e
  else e

/-- Enemy.checkPlatformCollisions (lines 300-309). -/
def Enemy.checkPlatformCollisions (e : Enemy) : List Platform → Enemy
  | [] => e
  | pl :: rest => Enemy.checkPlatformCollisions (e.platformCollideStep pl) rest

/-- Enemy.update (lines 271-298): defeated enemies only advance the defeat
timer and deactivate after 30 frames; otherwise gravity, patrol movement,
platform landing, then clamp/reverse at the patrol bounds. -/
def Enemy.update (e : Enemy) (platforms : List Platform) : Enemy :=
  if e.defeated = true then
    let e1 := { e with defeatTimer := e.defeatTimer + 1 }
    if e1.defeatTimer > 30 then { e1 with active := false } else e1
  else
    let e1 := { e with velocityY := e.velocityY + e.gravity }
    let e2 := { e1 with x := e1.x + e1.velocityX * e1.direction, y := e1.y + e1.velocityY }
    let e3 := e2.checkPlatformCollisions platforms
    if e3.x ≤ e3.patrolStart then
      { e3 with x := e3.patrolStart, direction := 1 }
    else if e3.x + e3.width ≥ e3.patrolEnd then
      { e3 with x := e3.patrolEnd - e3.width, direction := -1 }
    else e3

/-- The four collectible variants accepted by the Collectible constructor
(lines 430-442); any other tag would leave value and color undefined and is
rejected at construction time in the embedding. -/
inductive CollectibleType
  | coin
  | star
  | heart
  | doublejump
deriving DecidableEq

/-- Collectible state: Entity fields plus the constructor fields (lines
418-443).  bobOffset is omitted (render-only, derived from rotation via
Math.sin; nothing in the simulation reads it). -/
structure Collectible where
  x : ℚ
  y : ℚ
  width : ℚ
  height : ℚ
  color : String
  active : Bool
  type : CollectibleType
  collected : Bool
  rotation : ℚ
  value : Int

/-- new Collectible(x, y, type): per-type value and color (lines 430-442). -/
def mkCollectible (x y : ℚ) (t : CollectibleType) : Collectible :=
  { x := x, y := y, width := 25, height := 25,
    color := match t with
      | .coin => "#FFD700"
      | .star => "#FF6B6B"
      | .heart => "#E91E63"
      | .doublejump => "#2196F3",
    active := true, type := t, collected := false, rotation := 0,
    value := match t with
      | .coin => 10
      | .star => 50
      | .heart => 0
      | .doublejump => 100 }

def Collectible.toBox (c : Collectible) : Box :=
  { x := c.x, y := c.y, width := c.width, height := c.height, active := c.active }

/-- Collectible.update (lines 446-451): advance the rotation while not
collected (the derived bobOffset is render-only and omitted). -/
def Collectible.update (c : Collectible) : Collectible :=
  if c.collected = true then c else { c with rotation := c.rotation + 0.1 }

/-- Collectible.collect (lines 453-457): mark collected and inactive; the
returned record is read through the type and value fields of the receiver. -/
def Collectible.collect (c : Collectible) : Collectible :=
  { c with collected := true, active := false }

/-- Game state (constructor lines 542-575) minus the canvas/ctx handles and
with the keys map reduced to the two flags handleInput reads. -/
structure Game where
  cameraX : ℚ
  levelWidth : ℚ
  player : Player
  platforms : List Platform
  enemies : List Enemy
  collectibles : List Collectible
  score : Int
  highScore : Int
  level : Int
  keyLeft : Bool
  keyRight : Bool
  isRunning : Bool
  gameOver : Bool
  gameWon : Bool

/-- Game.createPlatforms (lines 587-633). -/
def createPlatforms : List Platform :=
  [ mkPlatform 0 550 400 50,
    mkPlatform 500 550 400 50,
    mkPlatform 1000 550 400 50,
    mkPlatform 1500 550 400 50,
    mkPlatform 2000 550 400 50,
    mkPlatform 150 450 200 20,
    mkPlatform 450 400 150 20,
    mkPlatform 700 450 180 20,
    mkPlatform 1000 420 200 20,
    mkPlatform 1300 450 150 20,
    mkPlatform 1600 400 200 20,
    mkPlatform 1900 450 180 20,
    mkPlatform 2150 420 200 20,
    mkPlatform 100 300 150 20,
    mkPlatform 350 280 120 20,
    mkPlatform 600 300 160 20,
    mkPlatform 900 250 180 20,
    mkPlatform 1200 300 150 20,
    mkPlatform 1500 280 140 20,
    mkPlatform 1800 300 160 20,
    mkPlatform 2100 250 150 20,
    mkPlatform 200 150 120 20,
    mkPlatform 500 180 140 20,
    mkPlatform 800 150 120 20,
    mkPlatform 1100 130 150 20,
    mkPlatform 1400 150 130 20,
    mkPlatform 1700 180 140 20,
    mkPlatform 2000 150 120 20,
    mkMovingPlatform 400 350 100 15 100 2,
    mkMovingPlatform 1000 200 100 15 150 2,
    mkMovingPlatform 1600 250 100 15 120 2,
    mkPlatform 2200 100 200 30 ]

/-- Game.createEnemies (lines 635-655). -/
def createEnemies : List Enemy :=
  [ mkEnemy 200 510 0 380,
    mkEnemy 550 510 500 880,
    mkEnemy 1050 510 1000 1380,
    mkEnemy 1550 510 1500 1880,
    mkEnemy 2050 510 2000 2380,
    mkEnemy 160 410 150 330,
    mkEnemy 460 360 450 580,
    mkEnemy 1010 380 1000 1180,
    mkEnemy 1610 360 1600 1780,
    mkEnemy 110 260 100 230,
    mkEnemy 910 210 900 1060,
    mkEnemy 1510 240 1500 1620 ]

/-- Game.createCollectibles (lines 657-686). -/
def createCollectibles : List Collectible :=
  ((List.range 30).map (fun i =>
      let r : ℕ := i % 3
      mkCollectible (200 + 70 * (i : ℚ)) (500 - (r : ℚ) * 150) .coin))
  ++ [ mkCollectible 230 110 .star,
       mkCollectible 680 260 .star,
       mkCollectible 1130 90 .star,
       mkCollectible 1730 140 .star,
       mkCollectible 2030 110 .star,
       mkCollectible 400 360 .heart,
       mkCollectible 1000 210 .heart,
       mkCollectible 1800 310 .heart,
       mkCollectible 800 110 .doublejump,
       mkCollectible 2280 50 .star ]

/-- Game.initLevel (lines 577-585). -/
def Game.initLevel (g : Game) : Game :=
  { g with player := mkPlayer 100 100, platforms := createPlatforms,
           enemies := createEnemies, collectibles := createCollectibles,
           gameOver := false, gameWon := false, cameraX := 0 }

/-- Game.handleInput (lines 712-722). -/
def Game.handleInput (g : Game) : Game :=
  if g.gameOver = true ∨ g.gameWon = true then g
  else if g.keyLeft = true then { g with player := g.player.moveLeft }
  else if g.keyRight = true then { g with player := g.player.moveRight }
  else { g with player := g.player.stop }

/-- Game.updateCamera (lines 724-728); canvas.width is the constant 800. -/
def Game.updateCamera (g : Game) : Game :=
  { g with cameraX := max 0 (min (g.player.x - 800 / 3) (g.levelWidth - 800)) }

/-- The collectibles.forEach body of Game.update (lines 746-762): advance
the animation, and on overlap with the not-yet-collected collectible apply
its effect (heart heals 1; doublejump unlocks the capability and scores;
anything else scores its value).  Threads player, score and the list. -/
def Game.collectiblesPass (p : Player) (s : Int) :
    List Collectible → Player × Int × List Collectible
  | [] => (p, s, [])
  | c :: rest =>
    let c1 := c.update
    if c1.collected = false ∧ Entity.collidesWith p.toBox c1.toBox = true then
      let c2 := c1.collect
      match c1.type with
      | .heart =>
        let r := Game.collectiblesPass (p.heal 1) s rest
        (r.1, r.2.1, c2 :: r.2.2)
      | .doublejump =>
        let r := Game.collectiblesPass { p with hasDoubleJump := true } (s + c1.value) rest
        (r.1, r.2.1, c2 :: r.2.2)
      | _ =>
        let r := Game.collectiblesPass p (s + c1.value) rest
        (r.1, r.2.1, c2 :: r.2.2)
    else
      let r := Game.collectiblesPass p s rest
      (r.1, r.2.1, c1 :: r.2.2)

/-- The enemies.forEach scoring pass of Game.update (lines 765-770): a
defeated enemy that has not yet been scored awards 50 once and is marked. -/
def Game.enemyScorePass (s : Int) : List Enemy → Int × List Enemy
  | [] => (s, [])
  | e :: rest =>
    if e.defeated = true ∧ e.scoreGiven = false then
      let r := Game.enemyScorePass (s + 50) rest
      (r.1, { e with scoreGiven := true } :: r.2)
    else
      let r := Game.enemyScorePass s rest
      (r.1, e :: r.2)

/-- The terminal checks at the end of Game.update (lines 776-789): two
independent if statements, the first entering gameOver when the player is
inactive, the second entering gameWon when player.x > 2250; each updates
the high score when beaten. -/
def Game.endChecks (g : Game) : Game :=
  let g1 := if g.player.active = false then
      { g with gameOver := true,
               highScore := if g.score > g.highScore then g.score else g.highScore }
    else g
  if g1.player.x > 2250 then
    { g1 with gameWon := true,
              highScore := if g1.score > g1.highScore then g1.score else g1.highScore }
  else g1

/-- The body of Game.update after the terminal-state early return (lines
734-773): input, player, platforms, enemies, collectibles, enemy scoring,
camera, in that order. -/
def Game.tickMain (g : Game) : Game :=
  let g1 := g.handleInput
  let pe := g1.player.update g1.platforms g1.enemies
  let g2 := { g1 with player := pe.1, enemies := pe.2 }
  let g3 := { g2 with platforms := g2.platforms.map Platform.update }
  let g4 := { g3 with enemies := g3.enemies.map (fun e => Enemy.update e g3.platforms) }
  let r := Game.collectiblesPass g4.player g4.score g4.collectibles
  let g5 := { g4 with player := r.1, score := r.2.1, collectibles := r.2.2 }
  let r2 := Game.enemyScorePass g5.score g5.enemies
  let g6 := { g5 with score := r2.1, enemies := r2.2 }
  g6.updateCamera

/-- Game.update (lines 731-790). -/
def Game.update (g : Game) : Game :=
  if g.gameOver = true ∨ g.gameWon = true then g
  else Game.endChecks (Game.tickMain g)

/-- Game.stop (lines 968-970). -/
def Game.stop (g : Game) : Game := { g with isRunning := false }

/-- Game.start (lines 962-966); the frame scheduling itself is external. -/
def Game.start (g : Game) : Game :=
  if g.isRunning = true then g else { g with isRunning := true }

/-- Game.reset (lines 972-978): stop, zero the score, reset the level
counter, rebuild the level, start. -/
def Game.reset (g : Game) : Game :=
  Game.start (Game.initLevel { g.stop with score := 0, level := 1 })

/-! ## Helper lemmas: field preservation -/

theorem handleInput_gameOver (g : Game) : (g.handleInput).gameOver = g.gameOver := by
  unfold Game.handleInput
  split_ifs <;> rfl

theorem handleInput_gameWon (g : Game) : (g.handleInput).gameWon = g.gameWon := by
  unfold Game.handleInput
  split_ifs <;> rfl

theorem handleInput_score (g : Game) : (g.handleInput).score = g.score := by
  unfold Game.handleInput
  split_ifs <;> rfl

theorem handleInput_collectibles (g : Game) : (g.handleInput).collectibles = g.collectibles := by
  unfold Game.handleInput
  split_ifs <;> rfl

theorem tickMain_gameOver (g : Game) : (Game.tickMain g).gameOver = g.gameOver := by
  have h : (Game.tickMain g).gameOver = (g.handleInput).gameOver := rfl
  rw [h, handleInput_gameOver]

theorem tickMain_gameWon (g : Game) : (Game.tickMain g).gameWon = g.gameWon := by
  have h : (Game.tickMain g).gameWon = (g.handleInput).gameWon := rfl
  rw [h, handleInput_gameWon]

theorem endChecks_player (g : Game) : (Game.endChecks g).player = g.player := by
  simp only [Game.endChecks]
  split_ifs <;> rfl

theorem endChecks_score (g : Game) : (Game.endChecks g).score = g.score := by
  simp only [Game.endChecks]
  split_ifs <;> rfl

theorem endChecks_gameOver (g : Game) :
    (Game.endChecks g).gameOver = (g.gameOver || !g.player.active) := by
  unfold Game.endChecks
  by_cases hA : g.player.active = false <;> by_cases hX : g.player.x > 2250 <;>
    simp [hA, hX]

theorem endChecks_gameWon (g : Game) :
    (Game.endChecks g).gameWon = (g.gameWon || decide (g.player.x > 2250)) := by
  unfold Game.endChecks
  by_cases hA : g.player.active = false <;> by_cases hX : g.player.x > 2250 <;>
    simp [hA, hX]

/-! ## C4: the collision primitive -/

/-- C4: Entity.collidesWith is symmetric, returns false whenever either
entity is inactive, and returns true iff both entities are active and the
bounding boxes strictly overlap on both axes (touching edges excluded).
The embedding is a pure function of the two boxes, so the call mutates
neither entity by construction. -/
theorem C4_theorem (a b : Box) :
    Entity.collidesWith a b = Entity.collidesWith b a ∧
    ((a.active = false ∨ b.active = false) → Entity.collidesWith a b = false) ∧
    (Entity.collidesWith a b = true ↔
      (a.active = true ∧ b.active = true ∧
       a.x < b.x + b.width ∧ a.x + a.width > b.x ∧
       a.y < b.y + b.height ∧ a.y + a.height > b.y)) := by
  refine ⟨?_, ?_, ?_⟩
  · unfold Entity.collidesWith
    rw [Bool.eq_iff_iff]
    simp only [Bool.and_eq_true, decide_eq_true_eq]
    constructor <;> intro h <;> tauto
  · intro h
    unfold Entity.collidesWith
    rcases h with h | h <;> simp [h]
  · unfold Entity.collidesWith
    simp only [Bool.and_eq_true, decide_eq_true_eq]
    tauto

def c4InactiveBox : Box := { x := 0, y := 0, width := 10, height := 10, active := false }

def c4ActiveBox : Box := { x := 0, y := 0, width := 10, height := 10, active := true }

/-- C4 witness: an inactive box never collides. -/
theorem C4_witness : Entity.collidesWith c4InactiveBox c4ActiveBox = false :=
  (C4_theorem c4InactiveBox c4ActiveBox).2.1 (Or.inl rfl)

/-! ## C8: the landing scenario -/

/-- C8: a player at x=100 with vy=0 whose bottom edge (y=510, height 40)
rests on a platform whose top is at y=550 is, after one Player.update
(gravity makes vy=0.6 and displaces y to 510.6), snapped back to
y = 550 - 40 = 510 with vy = 0 and isOnGround = true. -/
theorem C8_theorem :
    ((mkPlayer 100 510).update [mkPlatform 0 550 400 50] []).1.y = 550 - (mkPlayer 100 510).height ∧
    ((mkPlayer 100 510).update [mkPlatform 0 550 400 50] []).1.velocityY = 0 ∧
    ((mkPlayer 100 510).update [mkPlatform 0 550 400 50] []).1.isOnGround = true := by
  norm_num [Player.update, Player.integrate, Player.checkPlatformCollisions,
    Player.platformCollideStep, Entity.collidesWith, Player.toBox, Platform.toBox,
    mkPlatform, mkPlayer, Player.checkEnemyCollisions, Player.checkEnemyCollisionsAux,
    Player.constrainToBounds, platformTopTolerance, Player.landingRefill,
    Player.invincibilityTick]

/-! ## C3: enemy collision resolution -/

def c3p : Player := { mkPlayer 100 78 with velocityY := 10 }

def c3e : Enemy := mkEnemy 100 100 0 400

/-- C3 counterexample: a falling player whose pre-displacement bottom edge
is 8 below the enemy top edge overlaps the enemy.  A tolerance shallower
(smaller) than the platform-landing tolerance of 5 would classify this as
"every other overlap case" and apply damage, but the code (tolerance 10)
defeats the enemy, bounces the player and leaves the health untouched. -/
theorem C3_counterexample :
    c3p.invincible = false ∧ c3p.velocityY > 0 ∧
    Entity.collidesWith c3p.toBox c3e.toBox = true ∧
    c3p.y + c3p.height - c3p.velocityY = c3e.y + 8 ∧
    c3e.y + platformTopTolerance < c3p.y + c3p.height - c3p.velocityY ∧
    Player.checkEnemyCollisions c3p [c3e] =
      ({ c3p with velocityY := -10 }, [c3e.defeat]) := by
  refine ⟨rfl, by norm_num [c3p, mkPlayer], ?_, ?_, ?_, ?_⟩
  · norm_num [Entity.collidesWith, c3p, c3e, mkPlayer, mkEnemy, Player.toBox, Enemy.toBox]
  · norm_num [c3p, c3e, mkPlayer, mkEnemy]
  · norm_num [c3p, c3e, mkPlayer, mkEnemy, platformTopTolerance]
  · norm_num [Player.checkEnemyCollisions, Player.checkEnemyCollisionsAux,
      Player.enemyCollideStep, Entity.collidesWith, c3p, c3e, mkPlayer, mkEnemy,
      Player.toBox, Enemy.toBox, enemyTopTolerance]

/-- C3 (amended): enemy collision resolution is skipped entirely while the
player is invincible; for an overlapping enemy, if the player is falling
(vy > 0) and the pre-displacement bottom edge is at or above the enemy top
edge within the tolerance 10 - which is LARGER (more generous) than the
platform-landing tolerance 5, not smaller - the enemy is defeated and the
player receives the upward bounce impulse vy = -10; in every other overlap
case the player takes damage. -/
theorem C3_theorem (p : Player) (e : Enemy) (es : List Enemy) :
    (p.invincible = true → p.checkEnemyCollisions es = (p, es)) ∧
    (Entity.collidesWith p.toBox e.toBox = true →
      ((p.velocityY > 0 ∧ p.y + p.height - p.velocityY ≤ e.y + enemyTopTolerance) →
        p.enemyCollideStep e = ({ p with velocityY := -10 }, e.defeat)) ∧
      (¬(p.velocityY > 0 ∧ p.y + p.height - p.velocityY ≤ e.y + enemyTopTolerance) →
        p.enemyCollideStep e = (p.takeDamage, e))) ∧
    platformTopTolerance < enemyTopTolerance := by
  refine ⟨?_, ?_, by norm_num [platformTopTolerance, enemyTopTolerance]⟩
  · intro h
    unfold Player.checkEnemyCollisions
    rw [if_pos h]
  · intro hc
    unfold Player.enemyCollideStep
    rw [if_pos hc]
    constructor <;> intro hs
    · rw [if_pos hs]
    · rw [if_neg hs]

/-- C3 witness: the amended theorem applied at the concrete overlap at
depth 8 defeats the enemy and bounces the player. -/
theorem C3_witness :
    Player.enemyCollideStep c3p c3e = ({ c3p with velocityY := -10 }, c3e.defeat) :=
  ((C3_theorem c3p c3e []).2.1
      (by norm_num [Entity.collidesWith, c3p, c3e, mkPlayer, mkEnemy, Player.toBox,
        Enemy.toBox])).1
    (by norm_num [c3p, c3e, mkPlayer, mkEnemy, enemyTopTolerance])

/-! ## C5: patrol and oscillation bounds -/

theorem enemyPlatformStep_preserves (e : Enemy) (pl : Platform) :
    (e.platformCollideStep pl).x = e.x ∧
    (e.platformCollideStep pl).width = e.width ∧
    (e.platformCollideStep pl).patrolStart = e.patrolStart ∧
    (e.platformCollideStep pl).patrolEnd = e.patrolEnd ∧
    (e.platformCollideStep pl).defeated = e.defeated ∧
    (e.platformCollideStep pl).scoreGiven = e.scoreGiven := by
  unfold Enemy.platformCollideStep
  split_ifs <;> exact ⟨rfl, rfl, rfl, rfl, rfl, rfl⟩

theorem enemyCheckPlatform_preserves (ps : List Platform) (e : Enemy) :
    (e.checkPlatformCollisions ps).x = e.x ∧
    (e.checkPlatformCollisions ps).width = e.width ∧
    (e.checkPlatformCollisions ps).patrolStart = e.patrolStart ∧
    (e.checkPlatformCollisions ps).patrolEnd = e.patrolEnd ∧
    (e.checkPlatformCollisions ps).defeated = e.defeated ∧
    (e.checkPlatformCollisions ps).scoreGiven = e.scoreGiven := by
  induction ps generalizing e with
  | nil => exact ⟨rfl, rfl, rfl, rfl, rfl, rfl⟩
  | cons pl rest ih =>
    have h := enemyPlatformStep_preserves e pl
    have h2 := ih (e.platformCollideStep pl)
    simp only [Enemy.checkPlatformCollisions]
    exact ⟨h2.1.trans h.1, h2.2.1.trans h.2.1, h2.2.2.1.trans h.2.2.1,
      h2.2.2.2.1.trans h.2.2.2.1, h2.2.2.2.2.1.trans h.2.2.2.2.1,
      h2.2.2.2.2.2.trans h.2.2.2.2.2⟩

/-- The not-defeated branch of Enemy.update, spelled out. -/
theorem Enemy.update_not_defeated (e : Enemy) (platforms : List Platform)
    (hd : e.defeated = false) :
    e.update platforms =
      (if (Enemy.checkPlatformCollisions
            { e with velocityY := e.velocityY + e.gravity,
                     x := e.x + e.velocityX * e.direction,
                     y := e.y + (e.velocityY + e.gravity) } platforms).x ≤
          (Enemy.checkPlatformCollisions
            { e with velocityY := e.velocityY + e.gravity,
                     x := e.x + e.velocityX * e.direction,
                     y := e.y + (e.velocityY + e.gravity) } platforms).patrolStart then
        { Enemy.checkPlatformCollisions
            { e with velocityY := e.velocityY + e.gravity,
                     x := e.x + e.velocityX * e.direction,
                     y := e.y + (e.velocityY + e.gravity) } platforms with
          x := (Enemy.checkPlatformCollisions
            { e with velocityY := e.velocityY + e.gravity,
                     x := e.x + e.velocityX * e.direction,
                     y := e.y + (e.velocityY + e.gravity) } platforms).patrolStart,
          direction := 1 }
      else if (Enemy.checkPlatformCollisions
            { e with velocityY := e.velocityY + e.gravity,
                     x := e.x + e.velocityX * e.direction,
                     y := e.y + (e.velocityY + e.gravity) } platforms).x +
          (Enemy.checkPlatformCollisions
            { e with velocityY := e.velocityY + e.gravity,
                     x := e.x + e.velocityX * e.direction,
                     y := e.y + (e.velocityY + e.gravity) } platforms).width ≥
          (Enemy.checkPlatformCollisions
            { e with velocityY := e.velocityY + e.gravity,
                     x := e.x + e.velocityX * e.direction,
                     y := e.y + (e.velocityY + e.gravity) } platforms).patrolEnd then
        { Enemy.checkPlatformCollisions
            { e with velocityY := e.velocityY + e.gravity,
                     x := e.x + e.velocityX * e.direction,
                     y := e.y + (e.velocityY + e.gravity) } platforms with
          x := (Enemy.checkPlatformCollisions
            { e with velocityY := e.velocityY + e.gravity,
                     x := e.x + e.velocityX * e.direction,
                     y := e.y + (e.velocityY + e.gravity) } platforms).patrolEnd -
            (Enemy.checkPlatformCollisions
            { e with velocityY := e.velocityY + e.gravity,
                     x := e.x + e.velocityX * e.direction,
                     y := e.y + (e.velocityY + e.gravity) } platforms).width,
          direction := -1 }
      else Enemy.checkPlatformCollisions
            { e with velocityY := e.velocityY + e.gravity,
                     x := e.x + e.velocityX * e.direction,
                     y := e.y + (e.velocityY + e.gravity) } platforms) := by
  unfold Enemy.update
  rw [if_neg (by simp [hd])]

/-- C5: a moving platform never leaves [startX, startX + moveRange] after
update, and on the tick the advanced position would overshoot a bound it is
clamped exactly to the bound with the direction reversed; a non-defeated
enemy never leaves [patrolStart, patrolEnd - width] after update, with the
same exact clamping and reversal at its patrol bounds. -/
theorem C5_theorem (pl : Platform) (e : Enemy) (platforms : List Platform) :
    (pl.moving = true → 0 ≤ pl.moveRange →
      (pl.startX ≤ pl.update.x ∧ pl.update.x ≤ pl.startX + pl.moveRange) ∧
      (pl.startX + pl.moveRange < pl.x + pl.moveSpeed * pl.direction →
        pl.update.x = pl.startX + pl.moveRange ∧ pl.update.direction = -1) ∧
      (pl.x + pl.moveSpeed * pl.direction < pl.startX →
        pl.update.x = pl.startX ∧ pl.update.direction = 1)) ∧
    (e.defeated = false → e.patrolStart + e.width ≤ e.patrolEnd →
      (e.patrolStart ≤ (e.update platforms).x ∧
        (e.update platforms).x + e.width ≤ e.patrolEnd) ∧
      (e.x + e.velocityX * e.direction ≤ e.patrolStart →
        (e.update platforms).x = e.patrolStart ∧ (e.update platforms).direction = 1) ∧
      (e.patrolStart < e.x + e.velocityX * e.direction →
        e.patrolEnd ≤ e.x + e.velocityX * e.direction + e.width →
        (e.update platforms).x = e.patrolEnd - e.width ∧
        (e.update platforms).direction = -1)) := by
  constructor
  · intro hm hr
    simp only [Platform.update, if_pos hm]
    split_ifs with h1 h2 <;>
      refine ⟨⟨?_, ?_⟩, ?_, ?_⟩ <;> intros <;> dsimp only <;>
      first | rfl | (exact ⟨rfl, rfl⟩) | linarith | (exfalso; linarith)
  · intro hd hw
    rw [Enemy.update_not_defeated e platforms hd]
    have hp := enemyCheckPlatform_preserves platforms
      { e with velocityY := e.velocityY + e.gravity,
               x := e.x + e.velocityX * e.direction,
               y := e.y + (e.velocityY + e.gravity) }
    obtain ⟨hx, hwid, hps, hpe, _, _⟩ := hp
    rw [hx, hwid, hps, hpe]
    split_ifs with h1 h2 <;> (try dsimp only at *) <;>
      refine ⟨⟨?_, ?_⟩, ?_, ?_⟩ <;> intros <;> (try dsimp only) <;>
      first | rfl | (exact ⟨rfl, rfl⟩) | linarith | (exfalso; linarith)

def c5pl : Platform := mkMovingPlatform 0 350 100 15 10 20

def c5e : Enemy := mkEnemy 0 0 0 100

/-- C5 witness: a moving platform at its anchor with speed 20 and range 10
overshoots on this tick and is clamped with reversed direction; a fresh
enemy stays within its patrol interval. -/
theorem C5_witness :
    ((c5pl.startX ≤ c5pl.update.x ∧ c5pl.update.x ≤ c5pl.startX + c5pl.moveRange) ∧
      (c5pl.startX + c5pl.moveRange < c5pl.x + c5pl.moveSpeed * c5pl.direction →
        c5pl.update.x = c5pl.startX + c5pl.moveRange ∧ c5pl.update.direction = -1) ∧
      (c5pl.x + c5pl.moveSpeed * c5pl.direction < c5pl.startX →
        c5pl.update.x = c5pl.startX ∧ c5pl.update.direction = 1)) ∧
    ((c5e.patrolStart ≤ (c5e.update []).x ∧ (c5e.update []).x + c5e.width ≤ c5e.patrolEnd) ∧
      (c5e.x + c5e.velocityX * c5e.direction ≤ c5e.patrolStart →
        (c5e.update []).x = c5e.patrolStart ∧ (c5e.update []).direction = 1) ∧
      (c5e.patrolStart < c5e.x + c5e.velocityX * c5e.direction →
        c5e.patrolEnd ≤ c5e.x + c5e.velocityX * c5e.direction + c5e.width →
        (c5e.update []).x = c5e.patrolEnd - c5e.width ∧ (c5e.update []).direction = -1)) :=
  ⟨(C5_theorem c5pl c5e []).1 rfl (by norm_num [c5pl, mkMovingPlatform]),
   (C5_theorem c5pl c5e []).2 rfl (by norm_num [c5e, mkEnemy])⟩

/-! ## C7: jump and the double-jump charge -/

theorem takeDamage_dj (p : Player) :
    p.takeDamage.doubleJumpAvailable = p.doubleJumpAvailable := by
  simp only [Player.takeDamage]
  split_ifs <;> rfl

theorem enemyCollideStep_dj (p : Player) (e : Enemy) :
    (p.enemyCollideStep e).1.doubleJumpAvailable = p.doubleJumpAvailable := by
  unfold Player.enemyCollideStep
  split_ifs <;> first | rfl | exact takeDamage_dj p

theorem checkEnemyAux_dj (es : List Enemy) (p : Player) :
    (p.checkEnemyCollisionsAux es).1.doubleJumpAvailable = p.doubleJumpAvailable := by
  induction es generalizing p with
  | nil => rfl
  | cons e rest ih =>
    simp only [Player.checkEnemyCollisionsAux]
    exact (ih _).trans (enemyCollideStep_dj p e)

theorem checkEnemy_dj (p : Player) (es : List Enemy) :
    (p.checkEnemyCollisions es).1.doubleJumpAvailable = p.doubleJumpAvailable := by
  unfold Player.checkEnemyCollisions
  split_ifs with h
  · rfl
  · exact checkEnemyAux_dj es p

theorem constrain_dj (p : Player) :
    p.constrainToBounds.doubleJumpAvailable = p.doubleJumpAvailable := by
  simp only [Player.constrainToBounds]
  split_ifs <;> rfl

theorem platformCollideStep_dj (p : Player) (pl : Platform) :
    (p.platformCollideStep pl).doubleJumpAvailable = p.doubleJumpAvailable := by
  unfold Player.platformCollideStep
  split_ifs <;> rfl

theorem checkPlatform_dj (ps : List Platform) (p : Player) :
    (p.checkPlatformCollisions ps).doubleJumpAvailable = p.doubleJumpAvailable := by
  induction ps generalizing p with
  | nil => rfl
  | cons pl rest ih =>
    simp only [Player.checkPlatformCollisions]
    exact (ih _).trans (platformCollideStep_dj p pl)

theorem invincibilityTick_dj (p : Player) :
    (Player.invincibilityTick p).doubleJumpAvailable = p.doubleJumpAvailable := by
  simp only [Player.invincibilityTick]
  split_ifs <;> rfl

theorem update_dj (p : Player) (ps : List Platform) (es : List Enemy) :
    (p.update ps es).1.doubleJumpAvailable =
      (if (Player.checkPlatformCollisions (Player.integrate p) ps).isOnGround = true ∧
          p.isOnGround = false
       then true else p.doubleJumpAvailable) := by
  simp only [Player.update]
  rw [invincibilityTick_dj, constrain_dj, checkEnemy_dj]
  unfold Player.landingRefill
  split_ifs <;> first | rfl | exact checkPlatform_dj ps (Player.integrate p)

/-- C7: Player.jump applies the upward impulse and clears the grounded
flag when grounded (not consuming the charge); otherwise, with the
double-jump capability unlocked and the one-shot charge available, it
applies the same impulse and consumes the charge; in every other state it
is a no-op.  Player.update refills the charge exactly on the tick where
the player transitions from airborne to grounded (grounded after the
platform pass, airborne at tick start) and leaves it unchanged otherwise,
so at most one mid-air jump is possible per grounded cycle. -/
theorem C7_theorem (p : Player) (platforms : List Platform) (enemies : List Enemy) :
    (p.isOnGround = true →
      p.jump = { p with velocityY := -p.jumpPower, isOnGround := false }) ∧
    (p.isOnGround = false → p.hasDoubleJump = true → p.doubleJumpAvailable = true →
      p.jump = { p with velocityY := -p.jumpPower, doubleJumpAvailable := false }) ∧
    (p.isOnGround = false → (p.hasDoubleJump = false ∨ p.doubleJumpAvailable = false) →
      p.jump = p) ∧
    ((p.update platforms enemies).1.doubleJumpAvailable =
      (if (Player.checkPlatformCollisions (Player.integrate p) platforms).isOnGround = true ∧
          p.isOnGround = false
       then true else p.doubleJumpAvailable)) := by
  refine ⟨?_, ?_, ?_, update_dj p platforms enemies⟩
  · intro h
    unfold Player.jump
    rw [if_pos h]
  · intro h1 h2 h3
    unfold Player.jump
    rw [if_neg (by simp [h1]), if_pos ⟨h2, h3⟩]
  · intro h1 h2
    unfold Player.jump
    rw [if_neg (by simp [h1]), if_neg (by rcases h2 with h | h <;> simp [h])]

def c7p : Player := { mkPlayer 100 510 with isOnGround := true }

/-- C7 witness: a grounded player jumping receives the upward impulse and
loses the grounded flag. -/
theorem C7_witness :
    c7p.jump = { c7p with velocityY := -c7p.jumpPower, isOnGround := false } :=
  (C7_theorem c7p [] []).1 rfl

/-! ## C2: the health invariant -/

/-- The health invariant: health within [0, maxHealth] and zero exactly
when the player is inactive. -/
def PlayerInv (p : Player) : Prop :=
  0 ≤ p.health ∧ p.health ≤ p.maxHealth ∧ (p.health = 0 ↔ p.active = false)

theorem collidesWith_active_left (a b : Box) (h : Entity.collidesWith a b = true) :
    a.active = true := by
  simp only [Entity.collidesWith, Bool.and_eq_true] at h
  exact h.1.1.1.1.1

theorem active_health_pos (p : Player) (hp : PlayerInv p) (ha : p.active = true) :
    1 ≤ p.health := by
  obtain ⟨h0, _, hiff⟩ := hp
  have hne : p.health ≠ 0 := by
    intro h
    have hf := hiff.mp h
    rw [ha] at hf
    cases hf
  omega

theorem takeDamage_inv (p : Player) (hp : PlayerInv p) (ha : p.active = true) :
    PlayerInv p.takeDamage := by
  have h1 := active_health_pos p hp ha
  obtain ⟨h0, hm, hiff⟩ := hp
  simp only [Player.takeDamage]
  split_ifs with hi hle
  · exact ⟨h0, hm, hiff⟩
  · refine ⟨by dsimp only; omega, by dsimp only; omega, ?_⟩
    dsimp only
    simp only [iff_true]
    omega
  · refine ⟨by dsimp only; omega, by dsimp only; omega, ?_⟩
    dsimp only
    rw [ha]
    simp only [Bool.true_eq_false, iff_false]
    omega

theorem heal_inv (p : Player) (amt : Int) (hp : PlayerInv p) (ha : p.active = true)
    (hamt : 0 ≤ amt) : PlayerInv (p.heal amt) := by
  have h1 := active_health_pos p hp ha
  obtain ⟨h0, hm, hiff⟩ := hp
  unfold Player.heal
  refine ⟨by dsimp only; omega, by dsimp only; omega, ?_⟩
  dsimp only
  rw [ha]
  simp only [Bool.true_eq_false, iff_false]
  omega

theorem enemyCollideStep_inv (p : Player) (e : Enemy) (hp : PlayerInv p) :
    PlayerInv (p.enemyCollideStep e).1 := by
  unfold Player.enemyCollideStep
  split_ifs with hc hs
  · exact hp
  · exact takeDamage_inv p hp (collidesWith_active_left _ _ hc)
  · exact hp

theorem checkEnemyAux_inv (es : List Enemy) (p : Player) (hp : PlayerInv p) :
    PlayerInv (p.checkEnemyCollisionsAux es).1 := by
  induction es generalizing p with
  | nil => exact hp
  | cons e rest ih =>
    simp only [Player.checkEnemyCollisionsAux]
    exact ih _ (enemyCollideStep_inv p e hp)

theorem checkEnemy_inv (p : Player) (es : List Enemy) (hp : PlayerInv p) :
    PlayerInv (p.checkEnemyCollisions es).1 := by
  unfold Player.checkEnemyCollisions
  split_ifs with h
  · exact hp
  · exact checkEnemyAux_inv es p hp

theorem constrain_inv (p : Player) (hp : PlayerInv p) :
    PlayerInv p.constrainToBounds := by
  obtain ⟨h0, hm, hiff⟩ := hp
  simp only [Player.constrainToBounds]
  split_ifs <;> refine ⟨?_, ?_, ?_⟩ <;> dsimp only <;>
    first | omega | simp | exact hiff

theorem playerPlatformStep_preserves (p : Player) (pl : Platform) :
    (p.platformCollideStep pl).health = p.health ∧
    (p.platformCollideStep pl).maxHealth = p.maxHealth ∧
    (p.platformCollideStep pl).active = p.active := by
  unfold Player.platformCollideStep
  split_ifs <;> exact ⟨rfl, rfl, rfl⟩

theorem playerCheckPlatform_preserves (ps : List Platform) (p : Player) :
    (p.checkPlatformCollisions ps).health = p.health ∧
    (p.checkPlatformCollisions ps).maxHealth = p.maxHealth ∧
    (p.checkPlatformCollisions ps).active = p.active := by
  induction ps generalizing p with
  | nil => exact ⟨rfl, rfl, rfl⟩
  | cons pl rest ih =>
    have h := playerPlatformStep_preserves p pl
    have h2 := ih (p.platformCollideStep pl)
    simp only [Player.checkPlatformCollisions]
    exact ⟨h2.1.trans h.1, h2.2.1.trans h.2.1, h2.2.2.trans h.2.2⟩

theorem checkPlatform_inv (ps : List Platform) (p : Player) (hp : PlayerInv p) :
    PlayerInv (p.checkPlatformCollisions ps) := by
  obtain ⟨a, b, c⟩ := playerCheckPlatform_preserves ps p
  unfold PlayerInv
  rw [a, b, c]
  exact hp

theorem landingRefill_inv (p : Player) (w : Bool) (hp : PlayerInv p) :
    PlayerInv (p.landingRefill w) := by
  unfold Player.landingRefill
  split_ifs <;> exact hp

theorem invincibilityTick_inv (p : Player) (hp : PlayerInv p) :
    PlayerInv (Player.invincibilityTick p) := by
  simp only [Player.invincibilityTick]
  split_ifs <;> exact hp

theorem update_inv (p : Player) (ps : List Platform) (es : List Enemy) (hp : PlayerInv p) :
    PlayerInv (p.update ps es).1 := by
  simp only [Player.update]
  exact invincibilityTick_inv _ (constrain_inv _ (checkEnemy_inv _ es
    (landingRefill_inv _ _ (checkPlatform_inv ps _ hp))))

/-- Iterated Player.update with no platforms and no enemies: the free-fall
trajectory of the fall-death counterexample. -/
def fallSteps : Nat → Player → Player
  | 0, p => p
  | n + 1, p => fallSteps n (p.update [] []).1

/-- C2 counterexample: a freshly constructed player at (100, 595)
free-falls past y = 600 within four Player.update steps with no platforms
(the same run from the level spawn at y = 100 takes 41 steps); the fall
forces health to 0 and active to false while the player was never
invincible, and one further takeDamage call then drives health to -1,
leaving the claimed interval [0, maxHealth]. -/
theorem C2_counterexample :
    (fallSteps 4 (mkPlayer 100 595)).health = 0 ∧
    (fallSteps 4 (mkPlayer 100 595)).active = false ∧
    (fallSteps 4 (mkPlayer 100 595)).invincible = false ∧
    ((fallSteps 4 (mkPlayer 100 595)).takeDamage).health = -1 := by
  norm_num [fallSteps, Player.update, Player.integrate, Player.checkPlatformCollisions,
    Player.landingRefill, Player.invincibilityTick, mkPlayer,
    Player.checkEnemyCollisions, Player.checkEnemyCollisionsAux,
    Player.constrainToBounds, Player.takeDamage]

/-- C2 (amended): the invariant health within [0, maxHealth] with health 0
exactly when inactive is preserved by Player.update against any platforms
and enemies, by takeDamage invoked while the player is active, and by heal
with a nonnegative amount invoked while the player is active - the only
ways the game invokes them, since both are triggered by collisions with
the active player.  (Calling takeDamage on an already inactive,
non-invincible player drives health to -1, so the unrestricted claim
fails.)  Falling past y = 600 forces health to 0 and active to false. -/
theorem C2_theorem (p : Player) (platforms : List Platform) (enemies : List Enemy)
    (amt : Int) (hp : PlayerInv p) :
    PlayerInv (p.update platforms enemies).1 ∧
    (p.active = true → PlayerInv p.takeDamage) ∧
    (p.active = true → 0 ≤ amt → PlayerInv (p.heal amt)) ∧
    (p.y > 600 → p.constrainToBounds.health = 0 ∧ p.constrainToBounds.active = false) := by
  refine ⟨update_inv p platforms enemies hp, fun ha => takeDamage_inv p hp ha,
    fun ha hamt => heal_inv p amt hp ha hamt, fun hy => ?_⟩
  simp only [Player.constrainToBounds]
  split_ifs <;> first | exact ⟨rfl, rfl⟩ | (exfalso; dsimp only at *; linarith)

/-- C2 witness: the invariant holds for the freshly constructed player and
is preserved by one update, one guarded takeDamage and one guarded heal. -/
theorem C2_witness :
    PlayerInv ((mkPlayer 100 100).update [] []).1 ∧
    PlayerInv (mkPlayer 100 100).takeDamage ∧
    PlayerInv ((mkPlayer 100 100).heal 1) := by
  have h := C2_theorem (mkPlayer 100 100) [] [] 1
    (by refine ⟨?_, ?_, ?_⟩ <;> norm_num [mkPlayer, PlayerInv])
  exact ⟨h.1, h.2.1 rfl, h.2.2.1 rfl (by norm_num)⟩

/-! ## C6: the defeat bonus is awarded exactly once -/

theorem enemyUpdate_defeated (e : Enemy) (ps : List Platform) :
    (e.update ps).defeated = e.defeated := by
  simp only [Enemy.update]
  split_ifs with h <;>
    first
      | rfl
      | (obtain ⟨_, _, _, _, hd, _⟩ := enemyCheckPlatform_preserves ps
            { e with velocityY := e.velocityY + e.gravity,
                     x := e.x + e.velocityX * e.direction,
                     y := e.y + (e.velocityY + e.gravity) }
         try dsimp only
         exact hd)

theorem enemyUpdate_scoreGiven (e : Enemy) (ps : List Platform) :
    (e.update ps).scoreGiven = e.scoreGiven := by
  simp only [Enemy.update]
  split_ifs with h <;>
    first
      | rfl
      | (obtain ⟨_, _, _, _, _, hs⟩ := enemyCheckPlatform_preserves ps
            { e with velocityY := e.velocityY + e.gravity,
                     x := e.x + e.velocityX * e.direction,
                     y := e.y + (e.velocityY + e.gravity) }
         try dsimp only
         exact hs)

/-- The mutation performed by the scoring pass of Game.update (line 768):
enemy.scoreGiven = true. -/
def Enemy.markScored (e : Enemy) : Enemy := { e with scoreGiven := true }

theorem markScored_scoreGiven (e : Enemy) : e.markScored.scoreGiven = true := rfl

theorem markScored_defeated (e : Enemy) : e.markScored.defeated = e.defeated := rfl

/-- One Game.update tick as seen by a single enemy: an optional stomp by
the player during Player.update (Enemy.defeat), then its own Enemy.update
against the platforms of that tick, then the scoring pass of Game.update lines
765-770 for this enemy. -/
def enemyGameTick (t : Bool × List Platform) (s : Int) (e : Enemy) : Int × Enemy :=
  if (Enemy.update (if t.1 = true then e.defeat else e) t.2).defeated = true ∧
      (Enemy.update (if t.1 = true then e.defeat else e) t.2).scoreGiven = false then
    (s + 50, (Enemy.update (if t.1 = true then e.defeat else e) t.2).markScored)
  else (s, Enemy.update (if t.1 = true then e.defeat else e) t.2)

/-- Iterated ticks for a single enemy: each list entry gives whether the
player stomps the enemy on that tick and the platforms of that tick. -/
def enemyGameRun : List (Bool × List Platform) → Int → Enemy → Int × Enemy
  | [], s, e => (s, e)
  | t :: ts, s, e => enemyGameRun ts (enemyGameTick t s e).1 (enemyGameTick t s e).2

/-- C6: over any sequence of ticks, an enemy whose scoring flag is
consistent (scoreGiven implies defeated; initially both are false)
contributes the 50-point bonus to the score exactly once if it is ever
defeated - already defeated at the start, or stomped on some tick - and
never otherwise, independently of how many ticks the defeat animation
spans.  The per-enemy scoreGiven flag blocks any second award. -/
theorem C6_theorem (ticks : List (Bool × List Platform)) (s : Int) (e : Enemy)
    (h : e.scoreGiven = true → e.defeated = true) :
    (enemyGameRun ticks s e).1 =
      s + (if e.scoreGiven = false ∧
             ((e.defeated = true ∧ 0 < ticks.length) ∨ ∃ t ∈ ticks, t.1 = true)
           then 50 else 0) := by
  induction ticks generalizing s e with
  | nil => simp [enemyGameRun]
  | cons t ts ih =>
    simp only [enemyGameRun, enemyGameTick]
    have hd2 : (Enemy.update (if t.1 = true then e.defeat else e) t.2).defeated =
        (e.defeated || t.1) := by
      rw [enemyUpdate_defeated]
      cases ht : t.1 <;> simp [Enemy.defeat]
    have hs2 : (Enemy.update (if t.1 = true then e.defeat else e) t.2).scoreGiven =
        e.scoreGiven := by
      rw [enemyUpdate_scoreGiven]
      cases ht : t.1 <;> simp [Enemy.defeat]
    by_cases hsg : e.scoreGiven = true
    · rw [if_neg (fun hc => by rw [hs2, hsg] at hc; cases hc.2)]
      rw [ih s _ (fun _ => by rw [hd2, h hsg]; simp)]
      rw [hs2, hd2, hsg]
      simp
    · have hsg' : e.scoreGiven = false := by
        cases hv : e.scoreGiven
        · rfl
        · exact absurd hv hsg
      by_cases hdt : (e.defeated || t.1) = true
      · rw [if_pos ⟨by rw [hd2]; exact hdt, by rw [hs2]; exact hsg'⟩]
        rw [ih (s + 50) _ (fun _ => by rw [markScored_defeated, hd2]; exact hdt)]
        rw [markScored_scoreGiven]
        rw [if_neg (fun hc => by cases hc.1)]
        rw [if_pos ?side]
        case side =>
          refine ⟨hsg', ?_⟩
          rcases Bool.or_eq_true_iff.mp hdt with hcase | hcase
          · exact Or.inl ⟨hcase, by simp⟩
          · exact Or.inr ⟨t, List.mem_cons_self t ts, hcase⟩
        omega
      · have hdf : e.defeated = false := by
          cases hv : e.defeated
          · rfl
          · rw [hv] at hdt; simp at hdt
        have htf : t.1 = false := by
          cases hv : t.1
          · rfl
          · rw [hv] at hdt; simp at hdt
        rw [if_neg (fun hc => by rw [hd2] at hc; exact hdt hc.1)]
        rw [ih s _ (fun hc => by rw [hs2] at hc; exact absurd hc hsg)]
        rw [hs2, hd2]
        by_cases hex : ∃ x ∈ ts, x.1 = true
        · have hex2 : ∃ x ∈ t :: ts, x.1 = true := by
            obtain ⟨x, hx, hx1⟩ := hex
            exact ⟨x, List.mem_cons_of_mem t hx, hx1⟩
          rw [if_pos ⟨hsg', Or.inr hex⟩, if_pos ⟨hsg', Or.inr hex2⟩]
        · rw [if_neg (fun hc => by
            rcases hc.2 with hca | hca
            · exact hdt hca.1
            · exact hex hca)]
          rw [if_neg (fun hc => by
            rcases hc.2 with hca | ⟨x, hx, hx1⟩
            · rw [hdf] at hca
              cases hca.1
            · rcases List.mem_cons.mp hx with hxx | hx2
              · rw [hxx, htf] at hx1
                cases hx1
              · exact hex ⟨x, hx2, hx1⟩)]

def c6e : Enemy := mkEnemy 0 0 0 100

/-- C6 witness: a fresh enemy stomped on the single tick of the run is
awarded the 50-point bonus once. -/
theorem C6_witness :
    (enemyGameRun [(true, ([] : List Platform))] 0 c6e).1 =
      0 + (if c6e.scoreGiven = false ∧
             ((c6e.defeated = true ∧ 0 < [(true, ([] : List Platform))].length) ∨
              ∃ t ∈ [(true, ([] : List Platform))], t.1 = true)
           then 50 else 0) :=
  C6_theorem [(true, ([] : List Platform))] 0 c6e
    (by intro hc; simp [c6e, mkEnemy] at hc)

/-! ## C1: the terminal checks of Game.update -/

/-- A running game state whose player is already inactive at x = 2260,
past the goal threshold (empty entity lists keep the tick small). -/
def c1Game : Game :=
  { cameraX := 0, levelWidth := 2400,
    player := { mkPlayer 2260 100 with active := false, health := 0 },
    platforms := [], enemies := [], collectibles := [],
    score := 0, highScore := 0, level := 1,
    keyLeft := false, keyRight := false,
    isRunning := true, gameOver := false, gameWon := false }

/-- C1 counterexample: from a running state (gameOver and gameWon both
false) with the player inactive and x = 2260 > 2250, a single Game.update
sets gameOver AND gameWon on the same tick: the win check in the code is
an independent if, not an else branch, so gameWon is entered even though
the player is inactive on that tick, and the two flags are both true
afterwards. -/
theorem C1_counterexample :
    c1Game.gameOver = false ∧ c1Game.gameWon = false ∧
    c1Game.player.active = false ∧ c1Game.player.x > 2250 ∧
    (Game.update c1Game).gameOver = true ∧ (Game.update c1Game).gameWon = true := by
  refine ⟨rfl, rfl, rfl, by norm_num [c1Game, mkPlayer], ?_, ?_⟩ <;>
    norm_num [c1Game, Game.update, Game.tickMain, Game.endChecks, Game.handleInput,
      Game.updateCamera, Game.collectiblesPass, Game.enemyScorePass, Player.update,
      Player.integrate, Player.checkPlatformCollisions, Player.checkEnemyCollisions,
      Player.checkEnemyCollisionsAux, Player.constrainToBounds, Player.stop,
      Player.landingRefill, Player.invincibilityTick, mkPlayer]

/-- C1 (amended): on a tick of Game.update taken from a running state, the
game enters gameOver iff the updated player is inactive, and - by an
independent if, not an else - enters gameWon iff the updated player has
x > 2250, regardless of whether the player is active; hence on a tick
where the player is both inactive and past the threshold, gameOver and
gameWon become true together. -/
theorem C1_amended (g : Game) (h1 : g.gameOver = false) (h2 : g.gameWon = false) :
    ((Game.update g).gameOver = true ↔ (Game.update g).player.active = false) ∧
    ((Game.update g).gameWon = true ↔ (Game.update g).player.x > 2250) := by
  unfold Game.update
  rw [if_neg (by rw [h1, h2]; simp)]
  constructor
  · rw [endChecks_gameOver, endChecks_player, tickMain_gameOver, h1]
    cases hA : (Game.tickMain g).player.active <;> simp
  · rw [endChecks_gameWon, endChecks_player, tickMain_gameWon, h2]
    simp

/-- C1 witness: the amended characterisation applied to the concrete
running state of the counterexample. -/
theorem C1_witness :
    ((Game.update c1Game).gameOver = true ↔ (Game.update c1Game).player.active = false) ∧
    ((Game.update c1Game).gameWon = true ↔ (Game.update c1Game).player.x > 2250) :=
  C1_amended c1Game rfl rfl

/-! ## C9: reset preserves exactly the high score -/

/-- C9: Game.reset zeroes the score, clears both terminal flags, replaces
the player and all three entity collections with freshly constructed
instances, restarts the loop, and leaves highScore unchanged. -/
theorem C9_theorem (g : Game) :
    (Game.reset g).highScore = g.highScore ∧
    (Game.reset g).score = 0 ∧
    (Game.reset g).gameOver = false ∧
    (Game.reset g).gameWon = false ∧
    (Game.reset g).player = mkPlayer 100 100 ∧
    (Game.reset g).platforms = createPlatforms ∧
    (Game.reset g).enemies = createEnemies ∧
    (Game.reset g).collectibles = createCollectibles ∧
    (Game.reset g).isRunning = true := by
  refine ⟨?_, ?_, ?_, ?_, ?_, ?_, ?_, ?_, ?_⟩ <;> rfl

/-! ## C10: the score never decreases across a tick -/

theorem collectibleUpdate_value (c : Collectible) : c.update.value = c.value := by
  unfold Collectible.update
  split_ifs <;> rfl

theorem collectiblesPass_score_mono (cs : List Collectible) (p : Player) (s : Int)
    (hv : ∀ c ∈ cs, 0 ≤ c.value) :
    s ≤ (Game.collectiblesPass p s cs).2.1 := by
  induction cs generalizing p s with
  | nil => exact le_refl s
  | cons c rest ih =>
    have hc0 : 0 ≤ c.value := hv c (List.mem_cons_self c rest)
    have hrest : ∀ x ∈ rest, 0 ≤ x.value := fun x hx => hv x (List.mem_cons_of_mem c hx)
    simp only [Game.collectiblesPass]
    split_ifs with h
    · rcases htype : (Collectible.update c).type with _ | _ | _ | _ <;>
        simp only [htype] <;> (try dsimp only)
      · exact le_trans (by rw [collectibleUpdate_value]; omega) (ih p _ hrest)
      · exact le_trans (by rw [collectibleUpdate_value]; omega) (ih p _ hrest)
      · exact ih (p.heal 1) s hrest
      · exact le_trans (by rw [collectibleUpdate_value]; omega)
          (ih { p with hasDoubleJump := true } _ hrest)
    · exact ih p s hrest

theorem enemyScorePass_mono (es : List Enemy) (s : Int) :
    s ≤ (Game.enemyScorePass s es).1 := by
  induction es generalizing s with
  | nil => exact le_refl s
  | cons e rest ih =>
    simp only [Game.enemyScorePass]
    split_ifs with h
    · exact le_trans (by omega) (ih (s + 50))
    · exact ih s

/-- C10: across any single Game.update tick, the score never decreases:
every mutation adds the value of a collectible - nonnegative for all four
constructible variants (coin 10, star 50, heart 0, double-jump charm 100) -
or the nonnegative defeat bonus 50. -/
theorem C10_theorem (g : Game) (hv : ∀ c ∈ g.collectibles, 0 ≤ c.value) :
    g.score ≤ (Game.update g).score := by
  unfold Game.update
  split_ifs with h
  · exact le_refl _
  · rw [endChecks_score]
    show g.score ≤ (Game.tickMain g).score
    simp only [Game.tickMain, Game.updateCamera]
    refine le_trans ?_ (enemyScorePass_mono _ _)
    refine le_trans ?_ (collectiblesPass_score_mono _ _ _ ?hv2)
    · exact le_of_eq (handleInput_score g).symm
    case hv2 =>
      rw [handleInput_collectibles]
      exact hv

/-- C10 witness: every initially constructible collectible has a
nonnegative value, so the hypothesis holds for the fresh level; here
instantiated on a small running state with no collectibles left. -/
theorem C10_witness : c1Game.score ≤ (Game.update c1Game).score :=
  C10_theorem c1Game (by intro c hc; simp [c1Game] at hc)
